import Mathlib

/-
  Verification of the flight-simulation core of the mission-control repository.

  The TypeScript sources are shallowly embedded over the real numbers:
  JS `number` values are modelled as elements of ℝ (JS `Infinity` sentinels in
  mission data are modelled by EReal, and the NaN-propagation behaviour of
  Math.min/Math.max is modelled separately by the JSNum type where a claim
  depends on it).  Math.sqrt / Math.log / Math.exp / Math.cos / Math.sin become
  the Real functions, so the development is noncomputable; concrete evaluations
  in the theorems below are carried out by simp / norm_num.
-/

noncomputable section

open Classical

namespace MC

/-! ## Math primitives (src/lib/math.ts) -/

/-- 2D vector (src/types/physics.ts, Vector2D). -/
structure Vec2 where
  x : ℝ
  y : ℝ

/-- Component-wise vector addition (math.ts, add). -/
def add (a b : Vec2) : Vec2 := ⟨a.x + b.x, a.y + b.y⟩

/-- Component-wise vector subtraction (math.ts, sub). -/
def sub (a b : Vec2) : Vec2 := ⟨a.x - b.x, a.y - b.y⟩

/-- Scalar multiple of a vector (math.ts, scale). -/
def scale (v : Vec2) (s : ℝ) : Vec2 := ⟨v.x * s, v.y * s⟩

/-- Euclidean norm (math.ts, magnitude). -/
def magnitude (v : Vec2) : ℝ := Real.sqrt (v.x * v.x + v.y * v.y)

/-- Zero-safe normalisation (math.ts, normalize). -/
def normalize (v : Vec2) : Vec2 :=
  if magnitude v = 0 then ⟨0, 0⟩ else ⟨v.x / magnitude v, v.y / magnitude v⟩

/-- Dot product (math.ts, dot). -/
def dot (a b : Vec2) : ℝ := a.x * b.x + a.y * b.y

/-- z-component of the 3D cross product (math.ts, cross2D). -/
def cross2D (a b : Vec2) : ℝ := a.x * b.y - a.y * b.x

/-- Rotation by an angle in radians (math.ts, rotate). -/
def rotate (v : Vec2) (angleRad : ℝ) : Vec2 :=
  ⟨v.x * Real.cos angleRad - v.y * Real.sin angleRad,
   v.x * Real.sin angleRad + v.y * Real.cos angleRad⟩

/-- clamp(value, lo, hi) = Math.max(lo, Math.min(hi, value)) (math.ts, clamp). -/
def clamp (value lo hi : ℝ) : ℝ := max lo (min hi value)

/-- Degrees to radians (math.ts, degToRad). -/
def degToRad (degrees : ℝ) : ℝ := degrees * (Real.pi / 180)

/-! ## Physical constants (src/engine/physics/constants.ts) -/

/-- Gravitational constant. -/
def G : ℝ := 6.674e-11

/-- Standard gravity g₀. -/
def G0 : ℝ := 9.80665

/-- Mass of the Earth. -/
def EARTH_MASS : ℝ := 5.972e24

/-- Radius of the Earth in meters. -/
def EARTH_RADIUS : ℝ := 6.371e6

/-- Standard gravitational parameter μ = G · M. -/
def EARTH_MU : ℝ := G * EARTH_MASS

/-- Sea-level atmospheric density ρ₀. -/
def SEA_LEVEL_DENSITY : ℝ := 1.225

/-- Exponential-atmosphere scale height H. -/
def SCALE_HEIGHT : ℝ := 8500

/-- Karman line: altitude above which the atmosphere is vacuum. -/
def KARMAN_LINE : ℝ := 100000

/-- Reference physics timestep. -/
def FIXED_DT : ℝ := 0.01

/-- Global drag coefficient. -/
def DEFAULT_DRAG_COEFFICIENT : ℝ := 0.2

/-- Global cross-sectional area. -/
def DEFAULT_CROSS_SECTION : ℝ := 10

/-! ## Atmosphere (src/engine/physics/atmosphere.ts) -/

/-- Exponential atmospheric density model (atmosphere.ts, atmosphericDensity). -/
def atmosphericDensity (altitudeMeters : ℝ) : ℝ :=
  if altitudeMeters < 0 then SEA_LEVEL_DENSITY
  else if altitudeMeters > KARMAN_LINE then 0
  else SEA_LEVEL_DENSITY * Real.exp (-altitudeMeters / SCALE_HEIGHT)

/-! ## Propulsion math (src/engine/physics/tsiolkovsky.ts) -/

/-- Tsiolkovsky rocket equation with the source's edge guards (tsiolkovsky.ts, deltaV). -/
def deltaV (isp wetMass dryMass : ℝ) : ℝ :=
  if dryMass ≤ 0 ∨ wetMass ≤ dryMass then 0
  else isp * G0 * Real.log (wetMass / dryMass)

/-- Per-stage mass/performance summary (src/types/rocket.ts, StageSpec). -/
structure StageSpec where
  wetMass : ℝ
  dryMass : ℝ
  isp : ℝ
  thrustVacuum : ℝ
  thrustSeaLevel : ℝ

/-- Summed wet mass of a stage list; used for the payload carried by a lower stage. -/
def wetSum (specs : List StageSpec) : ℝ := (specs.map StageSpec.wetMass).sum

/-- Multi-stage Δv (tsiolkovsky.ts, totalDeltaV).  The TS loop over indices i with
payloadAbove = summed wetMass of stages.slice(i+1) is translated to structural
recursion: the head stage carries the summed wet mass of the remaining stages. -/
def totalDeltaV : List StageSpec → ℝ
  | [] => 0
  | s :: rest =>
      deltaV s.isp (s.wetMass + wetSum rest) (s.dryMass + wetSum rest) + totalDeltaV rest

/-- Adds the payload mass to the wet and dry mass of the top (last) stage, as done by
the builder store before delegating to totalDeltaV (src/unnamed/part_007,
getTotalDeltaV, lines 264-272). -/
def addPayloadToTop (p : ℝ) : List StageSpec → List StageSpec
  | [] => []
  | [s] => [{ s with wetMass := s.wetMass + p, dryMass := s.dryMass + p }]
  | s :: s2 :: rest => s :: addPayloadToTop p (s2 :: rest)

/-- The repository's multi-stage total Δv including the payload (src/unnamed/part_007,
getTotalDeltaV): the builder store's state (stage specs and payload mass) is passed
as arguments. -/
def getTotalDeltaV (specs : List StageSpec) (payloadMass : ℝ) : ℝ :=
  totalDeltaV (addPayloadToTop payloadMass specs)

/-- Modelled from the spec (section 4.2, Multi-stage Δv) for the C6 refinement
comparison: iterate over the stages; the payload carried by stage i is the summed
wet mass of all stages above plus the payload mass, and Δv_i applies deltaV to
(stage_i.wet + payload_above) and (stage_i.dry + payload_above). -/
def specMultiStageDeltaV (payloadMass : ℝ) : List StageSpec → ℝ
  | [] => 0
  | s :: rest =>
      deltaV s.isp (s.wetMass + (wetSum rest + payloadMass))
        (s.dryMass + (wetSum rest + payloadMass))
      + specMultiStageDeltaV payloadMass rest

/-- Mass flow rate ṁ = F / (Isp · g₀) with the Isp ≤ 0 guard (tsiolkovsky.ts,
massFlowRate). -/
def massFlowRate (thrustN isp : ℝ) : ℝ :=
  if isp ≤ 0 then 0 else thrustN / (isp * G0)

/-! ## Orbit math (src/unnamed/part_001, engine/physics/orbit.ts) -/

/-- Keplerian orbital elements (src/types/physics.ts, OrbitalElements).  The period
is Infinity for non-elliptic orbits in JS; that sentinel is modelled as ⊤ : EReal. -/
structure OrbitalElements where
  semiMajorAxis : ℝ
  eccentricity : ℝ
  inclination : ℝ
  apoapsis : ℝ
  periapsis : ℝ
  period : EReal

/-- Orbital elements from a position/velocity state (orbit.ts,
orbitalElementsFromState).  The source also computes the specific angular momentum
cross2D(position, velocity) but never uses it, so it is omitted here. -/
def orbitalElementsFromState (position velocity : Vec2) : OrbitalElements :=
  let r := magnitude position
  let v := magnitude velocity
  let energy := v * v / 2 - EARTH_MU / r
  let a := -EARTH_MU / (2 * energy)
  let eVecX := (v * v * position.x - dot position velocity * velocity.x) / EARTH_MU - position.x / r
  let eVecY := (v * v * position.y - dot position velocity * velocity.y) / EARTH_MU - position.y / r
  let e := Real.sqrt (eVecX * eVecX + eVecY * eVecY)
  { semiMajorAxis := a
    eccentricity := e
    inclination := 0
    apoapsis := a * (1 + e) - EARTH_RADIUS
    periapsis := a * (1 - e) - EARTH_RADIUS
    period := if a > 0 then (((2 * Real.pi * Real.sqrt (a * a * a / EARTH_MU)) : ℝ) : EReal) else ⊤ }

/-- Circular orbital velocity √(μ/r) (orbit.ts, circularOrbitalVelocity). -/
def circularOrbitalVelocity (radiusFromCenter : ℝ) : ℝ :=
  Real.sqrt (EARTH_MU / radiusFromCenter)

/-- Result of a Hohmann transfer computation (src/types/physics.ts, HohmannTransfer). -/
structure HohmannTransfer where
  burn1 : ℝ
  burn2 : ℝ
  total : ℝ

/-- Δv of a Hohmann transfer between circular orbits of radii r1 and r2 (orbit.ts,
hohmannDeltaV). -/
def hohmannDeltaV (r1 r2 : ℝ) : HohmannTransfer :=
  let v1 := Real.sqrt (EARTH_MU / r1)
  let aTransfer := (r1 + r2) / 2
  let vTransferAtR1 := Real.sqrt (EARTH_MU * (2 / r1 - 1 / aTransfer))
  let vTransferAtR2 := Real.sqrt (EARTH_MU * (2 / r2 - 1 / aTransfer))
  let v2 := Real.sqrt (EARTH_MU / r2)
  let burn1 := |vTransferAtR1 - v1|
  let burn2 := |v2 - vTransferAtR2|
  { burn1 := burn1, burn2 := burn2, total := burn1 + burn2 }

/-- Stability test: eccentricity < 1 and both apsides above the surface (orbit.ts,
isOrbitStable). -/
def isOrbitStable (elements : OrbitalElements) : Prop :=
  elements.eccentricity < 1 ∧ elements.periapsis > 0 ∧ elements.apoapsis > 0

/-! ## RK4 integrator (src/unnamed/part_003, engine/physics/trajectory.ts) -/

/-- Derivatives of the (position, velocity) state (trajectory.ts, Derivatives). -/
structure Derivatives where
  dPos : Vec2
  dVel : Vec2

/-- Total acceleration from gravity, drag and thrust (trajectory.ts,
computeAcceleration). -/
def computeAcceleration (position velocity : Vec2) (mass : ℝ) (thrust : Vec2)
    (dragCoeff crossSection : ℝ) : Vec2 :=
  let r := magnitude position
  if r = 0 ∨ mass ≤ 0 then ⟨0, 0⟩
  else
    let gMag := EARTH_MU / (r * r)
    let gravity := scale (normalize position) (-gMag)
    let altitude := r - EARTH_RADIUS
    let speed := magnitude velocity
    let drag : Vec2 :=
      if speed > 0 ∧ altitude < 100000 then
        let rho := atmosphericDensity altitude
        let dragMag := 0.5 * rho * speed * speed * dragCoeff * crossSection / mass
        scale (normalize velocity) (-dragMag)
      else ⟨0, 0⟩
    add (add gravity drag) (scale thrust (1 / mass))

/-- State derivatives (trajectory.ts, stateDerivatives). -/
def stateDerivatives (position velocity : Vec2) (mass : ℝ) (thrust : Vec2)
    (dragCoeff crossSection : ℝ) : Derivatives :=
  ⟨velocity, computeAcceleration position velocity mass thrust dragCoeff crossSection⟩

/-- Instantaneous simulation state (src/types/physics.ts, SimState). -/
structure SimState where
  position : Vec2
  velocity : Vec2
  mass : ℝ
  time : ℝ
  altitude : ℝ
  fuel : ℝ

/-- One 4th-order Runge-Kutta step (trajectory.ts, rk4Step). -/
def rk4Step (state : SimState) (dt : ℝ) (thrust : Vec2)
    (dragCoeff crossSection : ℝ) : SimState :=
  let k1 := stateDerivatives state.position state.velocity state.mass thrust dragCoeff crossSection
  let pos2 := add state.position (scale k1.dPos (dt / 2))
  let vel2 := add state.velocity (scale k1.dVel (dt / 2))
  let k2 := stateDerivatives pos2 vel2 state.mass thrust dragCoeff crossSection
  let pos3 := add state.position (scale k2.dPos (dt / 2))
  let vel3 := add state.velocity (scale k2.dVel (dt / 2))
  let k3 := stateDerivatives pos3 vel3 state.mass thrust dragCoeff crossSection
  let pos4 := add state.position (scale k3.dPos dt)
  let vel4 := add state.velocity (scale k3.dVel dt)
  let k4 := stateDerivatives pos4 vel4 state.mass thrust dragCoeff crossSection
  let newPosition :=
    add state.position
      (scale (add (add k1.dPos (scale k2.dPos 2)) (add (scale k3.dPos 2) k4.dPos)) (dt / 6))
  let newVelocity :=
    add state.velocity
      (scale (add (add k1.dVel (scale k2.dVel 2)) (add (scale k3.dVel 2) k4.dVel)) (dt / 6))
  { position := newPosition
    velocity := newVelocity
    mass := state.mass
    time := state.time + dt
    altitude := magnitude newPosition - EARTH_RADIUS
    fuel := state.fuel }

/-- Initial launch state at the equator with the Earth's rotation speed
(trajectory.ts, createLaunchState). -/
def createLaunchState (totalMass fuelMass : ℝ) : SimState :=
  { position := ⟨EARTH_RADIUS, 0⟩
    velocity := ⟨0, if EARTH_RADIUS > 0 then 465.1 else 0⟩
    mass := totalMass
    time := 0
    altitude := 0
    fuel := fuelMass }

/-! ## Flight data model (src/types/physics.ts) -/

/-- Terminal flight outcomes (src/types/physics.ts, FlightOutcome). -/
inductive FlightOutcome where
  | orbit_achieved
  | mission_complete
  | crash
  | suborbital
  | aborted
  | fuel_exhausted
deriving DecidableEq

/-- One recorded point of the flight history (src/types/physics.ts, FlightSnapshot). -/
structure FlightSnapshot where
  time : ℝ
  altitude : ℝ
  velocity : ℝ
  downrangeDistance : ℝ
  mass : ℝ
  fuel : ℝ
  currentStage : ℕ
  throttle : ℝ
  pitchAngle : ℝ
  orbitalElements : Option OrbitalElements
  position : Vec2

/-- Result of a completed flight (src/types/physics.ts, FlightResult). -/
structure FlightResult where
  outcome : FlightOutcome
  history : List FlightSnapshot
  finalOrbit : Option OrbitalElements
  totalDeltaVUsed : ℝ
  maxAltitude : ℝ
  flightDuration : ℝ

/-! ## Mission data model (src/unnamed/part_010, types/mission.ts) -/

/-- An inclusive numeric interval whose bounds may be the JS ±Infinity sentinels,
modelled as ⊥ / ⊤ in EReal (spec section 6: unbounded bounds are ±∞). -/
structure MinMax where
  min : EReal
  max : EReal

/-- Target orbit of a mission (types/mission.ts, OrbitalTarget). -/
structure OrbitalTarget where
  periapsis : MinMax
  apoapsis : MinMax
  inclination : Option MinMax

/-- Mission requirements (types/mission.ts, MissionRequirements). -/
structure MissionRequirements where
  targetOrbit : Option OrbitalTarget
  targetBody : Option String
  minPayloadMass : Option ℝ
  maxBudget : ℝ
  timeLimitSeconds : Option ℝ

/-- A bonus challenge (types/mission.ts, BonusChallenge).  The TS condition is a
boolean predicate that may throw; a thrown exception is modelled by the value
none, which the caller catches and treats as false. -/
structure BonusChallenge where
  id : String
  description : String
  condition : FlightResult → Option Bool
  bonusStars : ℕ

/-- A mission definition (types/mission.ts, Mission). -/
structure Mission where
  id : String
  tier : ℕ
  name : String
  codename : String
  description : String
  requirements : MissionRequirements
  budget : ℝ
  availableEngines : List String
  availableParts : List String
  bonusChallenges : List BonusChallenge
  educationalTopics : List String

/-! ## Rocket data model (src/types/rocket.ts) -/

/-- An engine definition (types/rocket.ts, EngineDef).  The TS field named
type is renamed engineType because type is a Lean keyword. -/
structure EngineDef where
  id : String
  name : String
  engineType : String
  thrustSeaLevel : ℝ
  thrustVacuum : ℝ
  ispSeaLevel : ℝ
  ispVacuum : ℝ
  mass : ℝ
  cost : ℝ
  throttleable : Bool
  minThrottle : ℝ
  restartable : Bool
  description : String
  tier : ℕ

/-- Engine id with a count (types/rocket.ts, EngineConfig). -/
structure EngineConfig where
  engineId : String
  count : ℕ

/-- Fairing configuration (types/rocket.ts, FairingConfig). -/
structure FairingConfig where
  partId : String
  jettisoned : Bool

/-- A builder stage (types/rocket.ts, Stage). -/
structure Stage where
  id : String
  engines : List EngineConfig
  fuelType : String
  fuelMass : ℝ
  fuelCapacity : ℝ
  structuralMass : ℝ
  partsCost : ℝ
  tanks : List String
  parts : List String
  fairings : Option FairingConfig

/-- The payload (types/rocket.ts, Payload). -/
structure Payload where
  name : String
  mass : ℝ

/-- A frozen rocket configuration (types/rocket.ts, RocketConfig). -/
structure RocketConfig where
  id : String
  name : String
  stages : List Stage
  payload : Payload
  totalCost : ℝ
  totalMass : ℝ
  totalDryMass : ℝ

/-! ## Scoring data model (src/types/scoring.ts, part of types/physics chunk) -/

/-- Efficiency component of the score (types/scoring.ts, EfficiencyScore). -/
structure EfficiencyScore where
  score : ℝ
  deltaVUsed : ℝ
  deltaVOptimal : ℝ
  fuelWasted : ℝ

/-- Budget component of the score (types/scoring.ts, BudgetScore). -/
structure BudgetScore where
  score : ℝ
  costSpent : ℝ
  budgetMax : ℝ
  percentUnderBudget : ℝ

/-- Accuracy component of the score (types/scoring.ts, AccuracyScore).  The source
sets orbitalDeviation to Infinity when there is no final orbit or no target,
so the field is modelled in EReal. -/
structure AccuracyScore where
  score : ℝ
  orbitalDeviation : EReal
  inclinationError : ℝ

/-- The three-axis score (types/scoring.ts, ScoreBreakdown). -/
structure ScoreBreakdown where
  efficiency : EfficiencyScore
  budget : BudgetScore
  accuracy : AccuracyScore
  totalScore : ℝ
  stars : ℕ

/-- Persisted mission result (types/mission.ts, MissionResult). -/
structure MissionResult where
  missionId : String
  stars : ℕ
  bestScore : ℝ
  bestRocketConfig : RocketConfig
  bonusCompleted : List String
  completedAt : ℝ
  flightResult : FlightResult

/-! ## Scoring (src/engine/simulation/Scoring.ts) -/

/-- JS Math.round: nearest integer with ties rounding toward +∞, i.e. ⌊x + 1/2⌋,
returned as a real number as in the source. -/
def jsRound (x : ℝ) : ℝ := (⌊x + 1/2⌋ : ℤ)

/-- JS isFinite on an extended real: true exactly on the finite values. -/
def isFiniteE (x : EReal) : Prop := x ≠ ⊤ ∧ x ≠ ⊥

/-- Optimal Δv estimate for a mission (Scoring.ts, optimalDeltaV).  In the branches
guarded by isFinite the source does plain arithmetic on the (then finite) bounds,
which is EReal.toReal here. -/
def optimalDeltaV (mission : Mission) : ℝ :=
  match mission.requirements.targetOrbit with
  | none => 0
  | some target =>
    let leoInsertionDv : ℝ := 9400
    if ¬ isFiniteE target.periapsis.min ∨ ¬ isFiniteE target.periapsis.max then
      let targetApo := if isFiniteE target.apoapsis.min then target.apoapsis.min.toReal else 100000
      Real.sqrt (2 * 9.80665 * targetApo) * 1.15
    else
      let targetPeri := (target.periapsis.min.toReal + target.periapsis.max.toReal) / 2
      let targetApo := (target.apoapsis.min.toReal + target.apoapsis.max.toReal) / 2
      let targetR := EARTH_RADIUS + (targetPeri + targetApo) / 2
      if targetR < EARTH_RADIUS + 2000e3 then leoInsertionDv
      else leoInsertionDv + (hohmannDeltaV (EARTH_RADIUS + 200e3) targetR).total

/-- Scores a completed flight (Scoring.ts, scoreFlightResult). -/
def scoreFlightResult (flight : FlightResult) (mission : Mission) (rocketCost : ℝ) :
    ScoreBreakdown :=
  let optDv := optimalDeltaV mission
  let effFrac := if optDv > 0 then optDv / max optDv flight.totalDeltaVUsed else 1
  let efficiencyScore := jsRound (clamp (effFrac * 100) 0 100)
  let fuelWasted := max 0 (flight.totalDeltaVUsed - optDv)
  let budgetFrac := 1 - rocketCost / mission.budget
  let budgetScore := jsRound (clamp (budgetFrac * 100 + 50) 0 100)
  let percentUnderBudget := max 0 (budgetFrac * 100)
  let accuracyScore0 :=
    match mission.requirements.targetOrbit, flight.finalOrbit with
    | some target, some finalOrbit =>
      if ¬ isFiniteE target.periapsis.min ∨ ¬ isFiniteE target.periapsis.max then
        let targetApo := if isFiniteE target.apoapsis.min then target.apoapsis.min.toReal else 100000
        jsRound (min 1 (flight.maxAltitude / targetApo) * 100)
      else
        let targetPeriMid := (target.periapsis.min.toReal + target.periapsis.max.toReal) / 2
        let targetApoMid := (target.apoapsis.min.toReal + target.apoapsis.max.toReal) / 2
        let periError := |finalOrbit.periapsis - targetPeriMid|
        let apoError := |finalOrbit.apoapsis - targetApoMid|
        let avgError := (periError + apoError) / 2
        let errorFrac := 1 - min 1 (avgError / (10000 * 10))
        jsRound (clamp (errorFrac * 100) 0 100)
    | _, _ =>
      if flight.outcome = .orbit_achieved ∨ flight.outcome = .mission_complete then 75 else 0
  let accuracyScore :=
    if flight.outcome = .crash ∨ flight.outcome = .suborbital ∨ flight.outcome = .fuel_exhausted
    then min accuracyScore0 10 else accuracyScore0
  let totalScore := jsRound ((efficiencyScore + budgetScore + accuracyScore) / 3)
  let stars : ℕ :=
    if totalScore ≥ 80 then 3 else if totalScore ≥ 60 then 2 else if totalScore ≥ 40 then 1 else 0
  let orbitalDeviation : EReal :=
    match flight.finalOrbit, mission.requirements.targetOrbit with
    | some finalOrbit, some target =>
        if isFiniteE target.periapsis.min then
          ((|finalOrbit.periapsis - target.periapsis.min.toReal| : ℝ) : EReal)
        else if isFiniteE target.apoapsis.min then
          ((|flight.maxAltitude - target.apoapsis.min.toReal| : ℝ) : EReal)
        else ⊤
    | _, _ => ⊤
  { efficiency :=
      { score := efficiencyScore
        deltaVUsed := flight.totalDeltaVUsed
        deltaVOptimal := optDv
        fuelWasted := fuelWasted }
    budget :=
      { score := budgetScore
        costSpent := rocketCost
        budgetMax := mission.budget
        percentUnderBudget := percentUnderBudget }
    accuracy :=
      { score := accuracyScore
        orbitalDeviation := orbitalDeviation
        inclinationError := 0 }
    totalScore := totalScore
    stars := stars }

/-! ## Mission result and bonus challenges
(src/engine/simulation, calculateMissionResult in the Scoring.ts chunk) -/

/-- Whitespace class for the regex escapes in the bonus-description patterns
(common ASCII whitespace; the exotic unicode space classes never occur in the
mission catalog descriptions). -/
def isWsChar (c : Char) : Bool := c == ' ' || c == '\t' || c == '\n' || c == '\r'

/-- Character class of the regex fragment matching digits and commas. -/
def isDigitOrComma (c : Char) : Bool := c.isDigit || c == ','

/-- Matches one-or-more whitespace, then a dollar sign, then one-or-more
digits-or-commas, at the head of the character list. -/
def matchesMoneyTail (cs : List Char) : Bool :=
  let ws := cs.takeWhile isWsChar
  if ws.isEmpty then false
  else
    match cs.drop ws.length with
    | '$' :: rest => !(rest.takeWhile isDigitOrComma).isEmpty
    | _ => false

/-- Case-insensitive match of the given lowercase keyword followed by the money
tail, at the head of the character list. -/
def kwThenMoneyAt (kw cs : List Char) : Bool :=
  if (cs.take kw.length).map Char.toLower = kw then matchesMoneyTail (cs.drop kw.length)
  else false

/-- Regex test: does the keyword-plus-money pattern match at some position of the
string? -/
def containsKwMoney (kw : List Char) : List Char → Bool
  | [] => false
  | c :: rest => kwThenMoneyAt kw (c :: rest) || containsKwMoney kw rest

/-- Does a bonus description refer to a cost threshold?  Translates the two
case-insensitive regex tests of the source (isCostBasedBonus). -/
def isCostBasedBonus (description : String) : Bool :=
  containsKwMoney "under".toList description.toList ||
  containsKwMoney "less than".toList description.toList

/-- Digits of the captured group, interpreted in base 10 (parseFloat of a plain
digit string). -/
def digitsToNat (cs : List Char) : ℕ :=
  cs.foldl (fun n c => 10 * n + (c.toNat - '0'.toNat)) 0

/-- Multiplier from the optional M/B/K suffix of the money regex, read
case-insensitively from the first character after the skipped whitespace. -/
def suffixMultiplier (cs : List Char) : ℝ :=
  match cs with
  | c :: _ =>
      if c.toLower = 'm' then 1000000
      else if c.toLower = 'b' then 1000000000
      else if c.toLower = 'k' then 1000
      else 1
  | [] => 1

/-- Leftmost match of the money regex: a dollar sign, a captured run of digits and
commas, optional whitespace, and an optional M/B/K multiplier (parseCostThreshold).
A captured group consisting only of commas makes JS parseFloat return NaN, and the
caller's comparison cost < NaN is false; that case is modelled as a failed parse,
which produces the same awarded value downstream. -/
def parseCostChars : List Char → Option ℝ
  | [] => none
  | '$' :: rest =>
      let run := rest.takeWhile isDigitOrComma
      if run.isEmpty then parseCostChars rest
      else
        let digits := run.filter Char.isDigit
        if digits.isEmpty then none
        else
          let afterWs := (rest.drop run.length).dropWhile isWsChar
          some ((digitsToNat digits : ℕ) * suffixMultiplier afterWs)
  | _ :: rest => parseCostChars rest

/-- Parses a dollar threshold from a bonus description (parseCostThreshold). -/
def parseCostThreshold (description : String) : Option ℝ :=
  parseCostChars description.toList

/-- Is a single bonus challenge awarded?  Translates one iteration of the bonus
loop of calculateMissionResult: the condition is evaluated first (a thrown
exception counts as false), and a false condition on a cost-based description
falls back to comparing the rocket cost against the parsed threshold. -/
def bonusAwarded (bonus : BonusChallenge) (flight : FlightResult) (totalCost : ℝ) : Prop :=
  if (bonus.condition flight).getD false = true then True
  else if isCostBasedBonus bonus.description then
    match parseCostThreshold bonus.description with
    | some threshold => totalCost < threshold
    | none => False
  else False

/-- Ids of the awarded bonus challenges, in catalog order (the bonus loop of
calculateMissionResult). -/
def evalBonusChallenges : List BonusChallenge → FlightResult → ℝ → List String
  | [], _, _ => []
  | b :: rest, flight, totalCost =>
      if bonusAwarded b flight totalCost then b.id :: evalBonusChallenges rest flight totalCost
      else evalBonusChallenges rest flight totalCost

/-- Complete mission result (calculateMissionResult).  The source stamps the result
with Date.now(); that external clock reading is passed as the argument now. -/
def calculateMissionResult (flight : FlightResult) (mission : Mission)
    (rocketConfig : RocketConfig) (now : ℝ) : MissionResult :=
  let isSuccess := flight.outcome = .mission_complete ∨ flight.outcome = .orbit_achieved
  let score := scoreFlightResult flight mission rocketConfig.totalCost
  let stars := if isSuccess then score.stars else 0
  let bonusCompleted :=
    if isSuccess then evalBonusChallenges mission.bonusChallenges flight rocketConfig.totalCost
    else []
  { missionId := mission.id
    stars := stars
    bestScore := score.totalScore
    bestRocketConfig := rocketConfig
    bonusCompleted := bonusCompleted
    completedAt := now
    flightResult := flight }

/-! ## Flight simulator (src/unnamed/part_006, FlightSimulator) -/

/-- Kinds of flight events (part_006, FlightEvent.type; the TS field named type is
renamed eventType because type is a Lean keyword). -/
inductive FlightEventType where
  | ignition
  | stage_separation
  | fuel_depleted
  | burn_start
  | burn_stop
  | abort
  | orbit_achieved
deriving DecidableEq

/-- A logged flight event (part_006, FlightEvent). -/
structure FlightEvent where
  time : ℝ
  eventType : FlightEventType
  stageIndex : Option ℕ
  description : String

/-- An engine definition paired with its count in a stage (part_006, the elements
of StageRuntime.engines; the TS field named def is renamed engineDef because
def is a Lean keyword). -/
structure ResolvedEngine where
  engineDef : EngineDef
  count : ℕ

/-- Mutable per-stage runtime data (part_006, StageRuntime). -/
structure StageRuntime where
  engines : List ResolvedEngine
  fuelRemaining : ℝ
  dryMass : ℝ
  totalThrust : ℝ
  totalThrustSL : ℝ
  avgIspVacuum : ℝ
  avgIspSeaLevel : ℝ
  flowRate : ℝ

/-- The full private state of a FlightSimulator instance (part_006, the fields of
class FlightSimulator). -/
structure FlightSim where
  state : SimState
  config : RocketConfig
  mission : Mission
  currentStageIndex : ℕ
  stages : List StageRuntime
  events : List FlightEvent
  history : List FlightSnapshot
  timeScale : ℝ
  throttle : ℝ
  pitchAngle : ℝ
  isRunning : Bool
  outcome : Option FlightOutcome
  totalDeltaVUsed : ℝ
  lastVelocity : ℝ

/-- Engine lookup by id (part_006, engineLookup map built from the engineDefs
constructor argument). -/
def lookupEngine (engineDefs : List EngineDef) (engineId : String) : Option EngineDef :=
  engineDefs.find? (fun e => e.id == engineId)

/-- Placeholder for the TS non-null assertion engineLookup.get(id)! on an
unresolved engine id; that case is caller misuse that the spec calls fatal at
construction, and no claim exercises it. -/
def undefinedEngineDef : EngineDef :=
  { id := "", name := "", engineType := "", thrustSeaLevel := 0, thrustVacuum := 0
    ispSeaLevel := 0, ispVacuum := 0, mass := 0, cost := 0, throttleable := false
    minThrottle := 0, restartable := false, description := "", tier := 0 }

/-- Builds the runtime data of one stage (part_006, the constructor's
config.stages.map body). -/
def mkStageRuntime (engineDefs : List EngineDef) (stage : Stage) : StageRuntime :=
  let engines := stage.engines.map (fun ec =>
    ResolvedEngine.mk ((lookupEngine engineDefs ec.engineId).getD undefinedEngineDef) ec.count)
  let totalThrustVac := (engines.map (fun e => e.engineDef.thrustVacuum * (e.count : ℝ))).sum
  let totalThrustSL := (engines.map (fun e => e.engineDef.thrustSeaLevel * (e.count : ℝ))).sum
  let avgIspVac :=
    if totalThrustVac > 0 then
      (engines.map (fun e => e.engineDef.ispVacuum * e.engineDef.thrustVacuum * (e.count : ℝ))).sum
        / totalThrustVac
    else 0
  let avgIspSL :=
    if totalThrustSL > 0 then
      (engines.map (fun e => e.engineDef.ispSeaLevel * e.engineDef.thrustSeaLevel * (e.count : ℝ))).sum
        / totalThrustSL
    else 0
  { engines := engines
    fuelRemaining := stage.fuelMass
    dryMass := stage.structuralMass + (engines.map (fun e => e.engineDef.mass * (e.count : ℝ))).sum
    totalThrust := totalThrustVac
    totalThrustSL := totalThrustSL
    avgIspVacuum := avgIspVac
    avgIspSeaLevel := avgIspSL
    flowRate := massFlowRate totalThrustVac avgIspVac }

/-- The FlightSimulator constructor (part_006, constructor).  Note that the fuel
readout of the initial SimState is seeded with the fuel summed over all stages,
not with the first stage's load. -/
def mkSimulator (config : RocketConfig) (mission : Mission) (engineDefs : List EngineDef) :
    FlightSim :=
  let stages := config.stages.map (mkStageRuntime engineDefs)
  let totalFuel := config.stages.foldl (fun sum s => sum + s.fuelMass) 0
  let state := createLaunchState config.totalMass totalFuel
  { state := state
    config := config
    mission := mission
    currentStageIndex := 0
    stages := stages
    events := [{ time := 0, eventType := .ignition, stageIndex := some 0
                 description := "Main engine ignition" }]
    history := []
    timeScale := 1
    throttle := 1
    pitchAngle := 0
    isRunning := false
    outcome := none
    totalDeltaVUsed := 0
    lastVelocity := magnitude state.velocity }

/-- The snapshot of the current state (part_006, recordSnapshot's pushed value). -/
def mkSnapshot (s : FlightSim) : FlightSnapshot :=
  { time := s.state.time
    altitude := s.state.altitude
    velocity := magnitude s.state.velocity
    downrangeDistance := 0
    mass := s.state.mass
    fuel := s.state.fuel
    currentStage := s.currentStageIndex
    throttle := s.throttle
    pitchAngle := s.pitchAngle
    orbitalElements :=
      if s.state.altitude > 50000 then
        some (orbitalElementsFromState s.state.position s.state.velocity)
      else none
    position := s.state.position }

/-- Appends a snapshot of the current state (part_006, recordSnapshot). -/
def recordSnapshot (s : FlightSim) : FlightSim :=
  { s with history := s.history ++ [mkSnapshot s] }

/-- Starts the simulation (part_006, start). -/
def start (s : FlightSim) : FlightSim :=
  recordSnapshot { s with isRunning := true }

/-- Sets the time-warp factor (part_006, setTimeScale):
Math.max(1, Math.min(100, scale)). -/
def setTimeScale (s : FlightSim) (sc : ℝ) : FlightSim :=
  { s with timeScale := max 1 (min 100 sc) }

/-- Sets the throttle (part_006, setThrottle): clamped to
[engine.minThrottle, 1] when the active stage's first engine is throttleable,
else snapped to 0 or 1 by sign; missing stage is a no-op, missing engine snaps. -/
def setThrottle (s : FlightSim) (value : ℝ) : FlightSim :=
  match s.stages.get? s.currentStageIndex with
  | none => s
  | some stage =>
    match stage.engines.head? with
    | some e =>
        if e.engineDef.throttleable then
          { s with throttle := max e.engineDef.minThrottle (min 1 value) }
        else
          { s with throttle := if value > 0 then 1 else 0 }
    | none => { s with throttle := if value > 0 then 1 else 0 }

/-- Sets the pitch angle in degrees from vertical (part_006, setPitchAngle). -/
def setPitchAngle (s : FlightSim) (degrees : ℝ) : FlightSim :=
  { s with pitchAngle := max 0 (min 90 degrees) }

/-- Manual stage separation (part_006, triggerStageSeparation).  A no-op when no
upper stage remains; otherwise logs the event, subtracts the discarded stage's
dry mass plus remaining fuel from the total mass, increments the active stage
index and resets the fuel readout.  The two list lookups are total by the guard,
so the final fallback arm is unreachable. -/
def triggerStageSeparation (s : FlightSim) : FlightSim :=
  if s.currentStageIndex ≥ s.stages.length - 1 then s
  else
    match s.stages.get? s.currentStageIndex, s.stages.get? (s.currentStageIndex + 1) with
    | some discardedStage, some nextStage =>
        let events := s.events ++
          [{ time := s.state.time, eventType := .stage_separation
             stageIndex := some s.currentStageIndex
             description := "Stage " ++ toString (s.currentStageIndex + 1) ++ " separated" }]
        let discardedMass := discardedStage.dryMass + discardedStage.fuelRemaining
        { s with events := events
                 state := { s.state with mass := s.state.mass - discardedMass
                                         fuel := nextStage.fuelRemaining }
                 currentStageIndex := s.currentStageIndex + 1 }
    | _, _ => s

/-- Aborts the mission (part_006, abort). -/
def abort (s : FlightSim) : FlightSim :=
  { s with outcome := some .aborted
           isRunning := false
           events := s.events ++
             [{ time := s.state.time, eventType := .abort, stageIndex := none
                description := "Mission aborted" }] }

/-- The orbital elements of the current state, as recomputed by the termination
classifier (part_006, the orbitalElementsFromState calls of checkTermination). -/
def termElements (s : FlightSim) : OrbitalElements :=
  orbitalElementsFromState s.state.position s.state.velocity

/-- The suborbital-mission completion test of the termination classifier
(part_006, checkTermination): the mission has a target orbit whose periapsis
lower bound is the -Infinity sentinel and the altitude has reached the apoapsis
lower bound. -/
def suborbitalMissionComplete (s : FlightSim) : Prop :=
  match s.mission.requirements.targetOrbit with
  | some target =>
      target.periapsis.min = (⊥ : EReal) ∧ ((s.state.altitude : ℝ) : EReal) ≥ target.apoapsis.min
  | none => False

/-- The target-orbit match test of the termination classifier (part_006,
checkTermination): both apsides of the current orbit lie within the target
intervals. -/
def targetOrbitMatched (s : FlightSim) : Prop :=
  match s.mission.requirements.targetOrbit with
  | some target =>
      (((termElements s).periapsis : ℝ) : EReal) ≥ target.periapsis.min ∧
      (((termElements s).periapsis : ℝ) : EReal) ≤ target.periapsis.max ∧
      (((termElements s).apoapsis : ℝ) : EReal) ≥ target.apoapsis.min ∧
      (((termElements s).apoapsis : ℝ) : EReal) ≤ target.apoapsis.max
  | none => False

/-- Fuel summed over the active stage and all stages above it (part_006,
checkTermination's remainingFuel). -/
def remainingFuel (s : FlightSim) : ℝ :=
  ((s.stages.drop s.currentStageIndex).map StageRuntime.fuelRemaining).sum

/-- The ordered termination classifier (part_006, checkTermination).  The TS
early-return chain is flattened into nested conditionals; the altitude-reached
event description interpolates a formatted altitude in the source, kept here as
a plain label since number formatting is display-only. -/
def checkTermination (s : FlightSim) : FlightSim :=
  if s.state.altitude < 0 then
    { s with outcome := some .crash, isRunning := false }
  else if suborbitalMissionComplete s then
    { s with outcome := some .mission_complete, isRunning := false
             events := s.events ++
               [{ time := s.state.time, eventType := .orbit_achieved, stageIndex := none
                  description := "Altitude reached - mission complete!" }] }
  else if s.state.altitude > 100000 ∧ isOrbitStable (termElements s) ∧ targetOrbitMatched s then
    { s with outcome := some .mission_complete, isRunning := false
             events := s.events ++
               [{ time := s.state.time, eventType := .orbit_achieved, stageIndex := none
                  description := "Target orbit achieved!" }] }
  else if s.state.altitude > 100000 ∧ isOrbitStable (termElements s) ∧
      s.mission.requirements.targetOrbit = none ∧ (termElements s).periapsis > 100000 then
    { s with outcome := some .orbit_achieved, isRunning := false
             events := s.events ++
               [{ time := s.state.time, eventType := .orbit_achieved, stageIndex := none
                  description := "Stable orbit achieved" }] }
  else if remainingFuel s ≤ 0 ∧ s.state.altitude > 100000 ∧ (termElements s).periapsis < 0 then
    { s with outcome := some .suborbital, isRunning := false }
  else s

/-- One physics micro-step (part_006, physicsStep).  The single TS burn branch is
split into the thrust vector and the state update, both guarded by the same pure
condition; the auto-stage block re-reads the (functionally updated) active stage
exactly as the TS code reads the mutated stage object. -/
def physicsStep (s : FlightSim) (dt : ℝ) : FlightSim :=
  match s.stages.get? s.currentStageIndex with
  | none => { s with outcome := some .fuel_exhausted, isRunning := false }
  | some stage =>
    let altFraction := min 1 (s.state.altitude / 100000)
    let effectiveThrust :=
      stage.totalThrustSL + (stage.totalThrust - stage.totalThrustSL) * altFraction
    let effectiveIsp :=
      stage.avgIspSeaLevel + (stage.avgIspVacuum - stage.avgIspSeaLevel) * altFraction
    let burn := stage.fuelRemaining > 0 ∧ s.throttle > 0
    let thrustVec : Vec2 :=
      if burn then
        scale (rotate (normalize s.state.position) (-(degToRad s.pitchAngle)))
          (effectiveThrust * s.throttle)
      else ⟨0, 0⟩
    let s1 : FlightSim :=
      if burn then
        let currentThrust := effectiveThrust * s.throttle
        let flowRate := massFlowRate currentThrust effectiveIsp
        let fuelConsumed := min (flowRate * dt) stage.fuelRemaining
        { s with
            stages := s.stages.set s.currentStageIndex
              { stage with fuelRemaining := stage.fuelRemaining - fuelConsumed }
            state := { s.state with mass := s.state.mass - fuelConsumed
                                    fuel := stage.fuelRemaining - fuelConsumed } }
      else s
    let s2 : FlightSim :=
      match s1.stages.get? s1.currentStageIndex with
      | some st =>
        if st.fuelRemaining ≤ 0 ∧ s1.currentStageIndex < s1.stages.length - 1 then
          let sEvt : FlightSim :=
            { s1 with events := s1.events ++
                [{ time := s1.state.time, eventType := .fuel_depleted
                   stageIndex := some s1.currentStageIndex
                   description := "Stage " ++ toString (s1.currentStageIndex + 1)
                     ++ " fuel depleted" }] }
          let sSep := triggerStageSeparation sEvt
          { sSep with events := sSep.events ++
              [{ time := sSep.state.time, eventType := .ignition
                 stageIndex := some sSep.currentStageIndex
                 description := "Stage " ++ toString (sSep.currentStageIndex + 1)
                   ++ " ignition" }] }
        else s1
      | none => s1
    let s3 :=
      { s2 with state :=
          rk4Step s2.state dt thrustVec DEFAULT_DRAG_COEFFICIENT DEFAULT_CROSS_SECTION }
    let currentVelocity := magnitude s3.state.velocity
    let s4 :=
      { s3 with totalDeltaVUsed := s3.totalDeltaVUsed + |currentVelocity - s3.lastVelocity|
                lastVelocity := currentVelocity }
    checkTermination s4

/-- Runs up to n micro-steps of size dt, stopping early on the first step that
sets a terminal outcome (part_006, the loop body of tick). -/
def runSteps : ℕ → FlightSim → ℝ → FlightSim
  | 0, s, _ => s
  | n + 1, s, dt =>
      let s' := physicsStep s dt
      if s'.outcome ≠ none then s' else runSteps n s' dt

/-- One driver tick (part_006, tick): a no-op unless running with no outcome;
otherwise runs ceil(dtReal x timeScale / FIXED_DT) micro-steps of equal size and
appends exactly one end-of-tick snapshot. -/
def tick (s : FlightSim) (dtReal : ℝ) : FlightSim :=
  if s.isRunning = false ∨ s.outcome ≠ none then s
  else
    let dtSim := dtReal * s.timeScale
    let steps : ℕ := (max 1 ⌈dtSim / FIXED_DT⌉).toNat
    let actualDt := dtSim / (steps : ℝ)
    recordSnapshot (runSteps steps s actualDt)

/-- JS Math.max over a list of numbers, used for the maximum recorded altitude
(part_006, getResult).  Math.max of an empty spread is -Infinity in JS, which ℝ
cannot represent; histories are nonempty for any started flight and no claim
reads maxAltitude of an empty history, so the empty case is modelled as 0. -/
def maxListJs : List ℝ → ℝ
  | [] => 0
  | [a] => a
  | a :: b :: rest => max a (maxListJs (b :: rest))

/-- The flight result (part_006, getResult).  A not-yet-set outcome defaults to
fuel_exhausted via the ?? operator. -/
def getResult (s : FlightSim) : FlightResult :=
  { outcome := s.outcome.getD .fuel_exhausted
    history := s.history
    finalOrbit :=
      if s.state.altitude > 100000 then
        some (orbitalElementsFromState s.state.position s.state.velocity)
      else none
    totalDeltaVUsed := s.totalDeltaVUsed
    maxAltitude := maxListJs (s.history.map FlightSnapshot.altitude)
    flightDuration := s.state.time }

/-- Current orbital elements, hidden below 50 km (part_006, getCurrentOrbit). -/
def getCurrentOrbit (s : FlightSim) : Option OrbitalElements :=
  if s.state.altitude < 50000 then none
  else some (orbitalElementsFromState s.state.position s.state.velocity)

/-! ## JS number semantics for setTimeScale (claim C5)

The real-valued model above cannot represent NaN, but claim C5 is precisely about
the NaN behaviour of Math.max(1, Math.min(100, scale)), so that one line is also
embedded over a type with an explicit NaN. -/

/-- A JS number that may be NaN. -/
inductive JSNum where
  | nan
  | num (x : ℝ)
deriving DecidableEq

/-- JS Math.min: NaN if any argument is NaN. -/
def jsMin (a b : JSNum) : JSNum :=
  match a, b with
  | .nan, _ => .nan
  | _, .nan => .nan
  | .num x, .num y => .num (min x y)

/-- JS Math.max: NaN if any argument is NaN. -/
def jsMax (a b : JSNum) : JSNum :=
  match a, b with
  | .nan, _ => .nan
  | _, .nan => .nan
  | .num x, .num y => .num (max x y)

/-- The stored time scale produced by setTimeScale (part_006, setTimeScale) under
JS number semantics: Math.max(1, Math.min(100, scale)). -/
def setTimeScaleJs (sc : JSNum) : JSNum :=
  jsMax (.num 1) (jsMin (.num 100) sc)

/-! ## Concrete fixtures used by the counterexamples and witnesses -/

/-- A tier-1 mission with no target orbit and a budget of 1000. -/
def c1Mission : Mission :=
  { id := "m1", tier := 1, name := "", codename := "", description := ""
    requirements :=
      { targetOrbit := none, targetBody := none, minPayloadMass := none
        maxBudget := 1000, timeLimitSeconds := none }
    budget := 1000, availableEngines := [], availableParts := []
    bonusChallenges := [], educationalTopics := [] }

/-- An engineless test stage carrying the given fuel load. -/
def mkTestStage (fuel : ℝ) : Stage :=
  { id := "s", engines := [], fuelType := "kerosene_lox", fuelMass := fuel
    fuelCapacity := fuel, structuralMass := 0, partsCost := 0, tanks := []
    parts := [], fairings := none }

/-- A two-stage rocket whose first stage holds 100 kg of fuel and whose second
stage holds 50 kg. -/
def c1Config : RocketConfig :=
  { id := "r1", name := "", stages := [mkTestStage 100, mkTestStage 50]
    payload := { name := "p", mass := 0 }, totalCost := 0, totalMass := 150
    totalDryMass := 0 }

/-- A throttleable engine whose minimum throttle is 0.4. -/
def c2Engine : EngineDef :=
  { id := "e1", name := "E1", engineType := "liquid_kerolox", thrustSeaLevel := 1000
    thrustVacuum := 1200, ispSeaLevel := 280, ispVacuum := 310, mass := 100
    cost := 1000, throttleable := true, minThrottle := 0.4, restartable := true
    description := "", tier := 1 }

/-- Runtime data of a single stage driven by c2Engine with 500 kg of fuel. -/
def c2StageRuntime : StageRuntime :=
  { engines := [⟨c2Engine, 1⟩], fuelRemaining := 500, dryMass := 100
    totalThrust := 1200, totalThrustSL := 1000, avgIspVacuum := 310
    avgIspSeaLevel := 280, flowRate := massFlowRate 1200 310 }

/-- A running single-stage simulator whose active engine is c2Engine. -/
def c2Sim : FlightSim :=
  { state := createLaunchState 600 500, config := c1Config, mission := c1Mission
    currentStageIndex := 0, stages := [c2StageRuntime], events := [], history := []
    timeScale := 1, throttle := 1, pitchAngle := 0, isRunning := true
    outcome := none, totalDeltaVUsed := 0, lastVelocity := 465.1 }

/-- The same simulator with the throttle already at zero. -/
def c2SimZero : FlightSim := { c2Sim with throttle := 0 }

/-- A crashed flight that used 1000 m/s of Δv. -/
def c4Flight : FlightResult :=
  { outcome := .crash, history := [], finalOrbit := none, totalDeltaVUsed := 1000
    maxAltitude := 0, flightDuration := 0 }

/-! ## Helper lemmas -/

/-- Folding fuel masses from an accumulator equals the accumulator plus the sum. -/
theorem foldl_fuelMass (l : List Stage) (a : ℝ) :
    l.foldl (fun sum s => sum + s.fuelMass) a = a + (l.map Stage.fuelMass).sum := by
  induction l generalizing a with
  | nil => simp
  | cons s rest ih => simp [ih, add_assoc]

/-- Evaluation rule for jsRound from a bracketing of x + 1/2. -/
theorem jsRound_eq {x : ℝ} {n : ℤ} (h1 : (n : ℝ) ≤ x + 1/2) (h2 : x + 1/2 < (n : ℝ) + 1) :
    jsRound x = (n : ℝ) := by
  have h : ⌊x + 1/2⌋ = n := Int.floor_eq_iff.mpr ⟨h1, by exact_mod_cast h2⟩
  rw [jsRound, h]

/-- A tick on a simulator that already has an outcome is a no-op. -/
theorem tick_stuck (s : FlightSim) (dt : ℝ) (h : s.outcome ≠ none) : tick s dt = s := by
  simp [tick, h]

/-- Any sequence of ticks on a simulator with an outcome is a no-op. -/
theorem foldl_tick_stuck (dts : List ℝ) (s : FlightSim) (h : s.outcome ≠ none) :
    dts.foldl tick s = s := by
  induction dts with
  | nil => rfl
  | cons d rest ih => rw [List.foldl_cons, tick_stuck s d h]; exact ih

/-- Manual stage separation never modifies the stage-runtime list. -/
theorem triggerStageSeparation_stages (s : FlightSim) :
    (triggerStageSeparation s).stages = s.stages := by
  unfold triggerStageSeparation
  split
  · rfl
  · split <;> rfl

/-- The termination classifier never modifies the stage-runtime list. -/
theorem checkTermination_stages (s : FlightSim) :
    (checkTermination s).stages = s.stages := by
  unfold checkTermination
  repeat' split
  all_goals rfl

/-- The termination classifier never modifies the physical state. -/
theorem checkTermination_state (s : FlightSim) :
    (checkTermination s).state = s.state := by
  unfold checkTermination
  repeat' split
  all_goals rfl

/-- Pushing the payload onto the top stage adds it to the summed wet mass. -/
theorem wetSum_addPayloadToTop (p : ℝ) : ∀ (s : StageSpec) (l : List StageSpec),
    wetSum (addPayloadToTop p (s :: l)) = wetSum (s :: l) + p
  | s, [] => by simp [addPayloadToTop, wetSum]
  | s, s2 :: rest => by
      have ih := wetSum_addPayloadToTop p s2 rest
      simp only [addPayloadToTop, wetSum, List.map_cons, List.sum_cons] at *
      rw [ih]
      ring

/-- The builder's payload-on-top-then-sum computation equals the spec's
per-stage payload-above formula. -/
theorem totalDeltaV_addPayloadToTop (p : ℝ) : ∀ specs : List StageSpec,
    totalDeltaV (addPayloadToTop p specs) = specMultiStageDeltaV p specs
  | [] => rfl
  | [s] => by
      simp only [addPayloadToTop, totalDeltaV, specMultiStageDeltaV, wetSum,
        List.map_nil, List.sum_nil, add_zero, zero_add]
  | s :: s2 :: rest => by
      have ih := totalDeltaV_addPayloadToTop p (s2 :: rest)
      simp only [addPayloadToTop, totalDeltaV, specMultiStageDeltaV]
      rw [wetSum_addPayloadToTop p s2 rest, ih]
      simp only [specMultiStageDeltaV]

/-! ## Claim theorems -/

/-- C1 counterexample: for the two-stage rocket c1Config (first-stage fuel 100,
second-stage fuel 50), the SimState.fuel field immediately after construction is
150, the summed fuel, not the first stage's 100. -/
theorem C1_counterexample :
    c1Config.stages.head?.map Stage.fuelMass = some 100 ∧
    (mkSimulator c1Config c1Mission []).state.fuel = 150 ∧ (150 : ℝ) ≠ 100 := by
  refine ⟨rfl, ?_, by norm_num⟩
  simp [mkSimulator, createLaunchState, c1Config, mkTestStage]
  norm_num

/-- C1 (amended): immediately after FlightSimulator construction the SimState.fuel
field equals the fuel_mass summed over all stages of the RocketConfig (which
coincides with the first stage's fuel_mass only when the upper stages carry no
fuel). -/
theorem C1_fuel_after_construction (config : RocketConfig) (mission : Mission)
    (engineDefs : List EngineDef) :
    (mkSimulator config mission engineDefs).state.fuel =
      (config.stages.map Stage.fuelMass).sum := by
  simp only [mkSimulator, createLaunchState]
  rw [foldl_fuelMass]
  ring

/-- C2 counterexample: on a simulator whose active stage's primary engine is
throttleable with minThrottle 0.4, set_throttle(0) stores 0.4, not 0. -/
theorem C2_counterexample :
    (setThrottle c2Sim 0).throttle = 2 / 5 ∧ (2 / 5 : ℝ) ≠ 0 := by
  refine ⟨?_, by norm_num⟩
  have hs : c2Sim.stages.get? c2Sim.currentStageIndex = some c2StageRuntime := rfl
  have he : c2StageRuntime.engines.head? = some ⟨c2Engine, 1⟩ := rfl
  have hth : c2Engine.throttleable = true := rfl
  simp only [setThrottle, hs, he, hth, if_true]
  norm_num [show c2Engine.minThrottle = (0.4 : ℝ) from rfl]

/-- C2 (amended): set_throttle(0) stores 0 when the active stage's primary engine
is absent or not throttleable; when it is throttleable the stored value is
max(min_throttle, 0), which is the engine's min_throttle (not 0) whenever
min_throttle is positive.  Whenever the stored throttle is 0, a micro-step leaves
every stage's remaining fuel unchanged, and also leaves the total mass unchanged
while the active stage still holds fuel. -/
theorem C2_setThrottle_zero (s : FlightSim) (stage : StageRuntime) (dt : ℝ)
    (hs : s.stages.get? s.currentStageIndex = some stage) :
    ((setThrottle s 0).throttle =
      match stage.engines.head? with
      | some e => if e.engineDef.throttleable then max e.engineDef.minThrottle 0 else 0
      | none => 0) ∧
    (s.throttle = 0 → (physicsStep s dt).stages = s.stages) ∧
    (s.throttle = 0 → 0 < stage.fuelRemaining →
      (physicsStep s dt).state.mass = s.state.mass) := by
  refine ⟨?_, ?_, ?_⟩
  · simp only [setThrottle, hs]
    cases he : stage.engines.head? with
    | none => simp
    | some e =>
      cases hthr : e.engineDef.throttleable with
      | true => simp [hthr]
      | false => simp [hthr]
  · intro h0
    have hburn : ¬(stage.fuelRemaining > 0 ∧ s.throttle > 0) := by
      rintro ⟨-, hthr⟩
      rw [h0] at hthr
      exact lt_irrefl 0 hthr
    simp only [physicsStep, hs]
    rw [if_neg hburn, if_neg hburn]
    simp only [hs]
    by_cases hfd : stage.fuelRemaining ≤ 0 ∧ s.currentStageIndex < s.stages.length - 1
    · rw [if_pos hfd, checkTermination_stages]
      simp [triggerStageSeparation_stages]
    · rw [if_neg hfd, checkTermination_stages]
  · intro h0 hfuel
    have hburn : ¬(stage.fuelRemaining > 0 ∧ s.throttle > 0) := by
      rintro ⟨-, hthr⟩
      rw [h0] at hthr
      exact lt_irrefl 0 hthr
    have hnofd : ¬(stage.fuelRemaining ≤ 0 ∧ s.currentStageIndex < s.stages.length - 1) :=
      fun hc => absurd hc.1 (not_le.mpr hfuel)
    simp only [physicsStep, hs]
    rw [if_neg hburn, if_neg hburn]
    simp only [hs]
    rw [if_neg hnofd, checkTermination_state]
    simp [rk4Step]

/-- C2 witness: on the throttle-zero simulator c2SimZero, set_throttle(0) stores
the engine's minimum throttle 0.4, and a micro-step of one second changes neither
the stage fuel loads nor the total mass. -/
theorem C2_setThrottle_zero_witness :
    (setThrottle c2SimZero 0).throttle = 2 / 5 ∧
    (physicsStep c2SimZero 1).stages = c2SimZero.stages ∧
    (physicsStep c2SimZero 1).state.mass = c2SimZero.state.mass := by
  have hs : c2SimZero.stages.get? c2SimZero.currentStageIndex = some c2StageRuntime := rfl
  obtain ⟨h1, h2, h3⟩ := C2_setThrottle_zero c2SimZero c2StageRuntime 1 hs
  refine ⟨?_, h2 rfl, h3 rfl (by norm_num [c2StageRuntime])⟩
  rw [h1]
  norm_num [show c2StageRuntime.engines.head? = some ⟨c2Engine, 1⟩ from rfl,
    show c2Engine.throttleable = true from rfl,
    show c2Engine.minThrottle = (0.4 : ℝ) from rfl]

/-- C3 counterexample: for the no-target mission c1Mission the code returns an
efficiency score of 100 (the ratio is short-circuited to 1 when the optimal Δv is
not positive), while the claimed closed formula
round(clamp(100 x optimal / max(optimal, used), 0, 100)) evaluates to 0. -/
theorem C3_counterexample :
    (scoreFlightResult c4Flight c1Mission 100).efficiency.score = 100 ∧
    jsRound (clamp (100 * optimalDeltaV c1Mission /
      max (optimalDeltaV c1Mission) c4Flight.totalDeltaVUsed) 0 100) = 0 ∧
    (100 : ℝ) ≠ 0 := by
  have h2 : optimalDeltaV c1Mission = 0 := by simp only [optimalDeltaV, c1Mission]
  refine ⟨?_, ?_, by norm_num⟩
  · simp only [scoreFlightResult, h2]
    rw [if_neg (lt_irrefl (0 : ℝ))]
    have hc : clamp ((1 : ℝ) * 100) 0 100 = 100 := by norm_num [clamp]
    rw [hc]
    simpa using jsRound_eq (x := 100) (n := 100) (by norm_num) (by norm_num)
  · rw [h2]
    have hv : (100 : ℝ) * 0 / max 0 c4Flight.totalDeltaVUsed = 0 := by norm_num
    rw [hv]
    have hc : clamp (0 : ℝ) 0 100 = 0 := by norm_num [clamp]
    rw [hc]
    simpa using jsRound_eq (x := 0) (n := 0) (by norm_num) (by norm_num)

/-- C3 (amended): the efficiency score equals
round(clamp(optimal / max(optimal, used) x 100, 0, 100)) whenever the optimal Δv
is positive; when it is not positive — in particular for every mission with no
target orbit, whose optimal Δv is 0 — the ratio is taken to be 1 and the score is
100. -/
theorem C3_efficiency_score (flight : FlightResult) (mission : Mission) (rocketCost : ℝ) :
    ((scoreFlightResult flight mission rocketCost).efficiency.score =
      if 0 < optimalDeltaV mission then
        jsRound (clamp (optimalDeltaV mission /
          max (optimalDeltaV mission) flight.totalDeltaVUsed * 100) 0 100)
      else 100) ∧
    (mission.requirements.targetOrbit = none → optimalDeltaV mission = 0) := by
  constructor
  · simp only [scoreFlightResult]
    by_cases h : 0 < optimalDeltaV mission
    · rw [if_pos h, if_pos h]
    · rw [if_neg h, if_neg h]
      have hc : clamp ((1 : ℝ) * 100) 0 100 = 100 := by norm_num [clamp]
      rw [hc]
      simpa using jsRound_eq (x := 100) (n := 100) (by norm_num) (by norm_num)
  · intro h
    simp only [optimalDeltaV, h]

/-- C3 witness: the no-target mission has optimal Δv 0 and efficiency score 100. -/
theorem C3_efficiency_score_witness :
    c1Mission.requirements.targetOrbit = none ∧ optimalDeltaV c1Mission = 0 ∧
    (scoreFlightResult c4Flight c1Mission 100).efficiency.score = 100 := by
  have h := C3_efficiency_score c4Flight c1Mission 100
  have h2 : optimalDeltaV c1Mission = 0 := h.2 rfl
  refine ⟨rfl, h2, ?_⟩
  rw [h.1, if_neg (by rw [h2]; norm_num)]

/-- C4 counterexample: scoreFlightResult's own stars field is 2 for a crashed
flight of the no-target mission with cost 100 against budget 1000 (efficiency 100,
budget 100, accuracy 0, total 67), so it is not 0 on every failure outcome. -/
theorem C4_counterexample :
    (scoreFlightResult c4Flight c1Mission 100).stars = 2 ∧
    c4Flight.outcome = FlightOutcome.crash ∧ (2 : ℕ) ≠ 0 := by
  have h2 : optimalDeltaV c1Mission = 0 := by simp only [optimalDeltaV, c1Mission]
  refine ⟨?_, rfl, by norm_num⟩
  have ht : c1Mission.requirements.targetOrbit = none := rfl
  have hf : c4Flight.finalOrbit = none := rfl
  have ho : c4Flight.outcome = FlightOutcome.crash := rfl
  have hu : c4Flight.totalDeltaVUsed = (1000 : ℝ) := rfl
  have hb : c1Mission.budget = (1000 : ℝ) := rfl
  have hne1 : ¬(FlightOutcome.crash = FlightOutcome.orbit_achieved) := fun h =>
    FlightOutcome.noConfusion h
  have hne2 : ¬(FlightOutcome.crash = FlightOutcome.mission_complete) := fun h =>
    FlightOutcome.noConfusion h
  simp only [scoreFlightResult, h2, ht, hf, ho, hu, hb, hne1, hne2, or_self, if_false,
    eq_self_iff_true]
  norm_num [clamp, jsRound]

/-- C4 (amended): the stars value that is forced to 0 on the failure outcomes
Crash, Suborbital and FuelExhausted is the stars field of the MissionResult
returned by calculateMissionResult (scoreFlightResult's ScoreBreakdown.stars is
derived from the total score alone and can be nonzero on a failure). -/
theorem C4_failure_stars_zero (flight : FlightResult) (mission : Mission)
    (rocketConfig : RocketConfig) (now : ℝ)
    (h : flight.outcome = FlightOutcome.crash ∨ flight.outcome = FlightOutcome.suborbital ∨
      flight.outcome = FlightOutcome.fuel_exhausted) :
    (calculateMissionResult flight mission rocketConfig now).stars = 0 := by
  have hns : ¬(flight.outcome = FlightOutcome.mission_complete ∨
      flight.outcome = FlightOutcome.orbit_achieved) := by
    rcases h with h | h | h <;> simp [h]
  simp only [calculateMissionResult]
  rw [if_neg hns]

/-- C4 witness: the crashed flight receives 0 stars in its MissionResult. -/
theorem C4_failure_stars_zero_witness :
    (calculateMissionResult c4Flight c1Mission c1Config 0).stars = 0 :=
  C4_failure_stars_zero c4Flight c1Mission c1Config 0 (Or.inl rfl)

/-- C5: the code stores Math.max(1, Math.min(100, x)); under JS semantics a NaN
argument is stored as NaN (it is not snapped into [1, 100] as the spec requires),
while every real argument is indeed clamped into [1, 100]. -/
theorem C5_setTimeScale_nan :
    setTimeScaleJs JSNum.nan = JSNum.nan ∧
    ∀ (s : FlightSim) (x : ℝ),
      1 ≤ (setTimeScale s x).timeScale ∧ (setTimeScale s x).timeScale ≤ 100 := by
  refine ⟨rfl, fun s x => ?_⟩
  simp only [setTimeScale]
  exact ⟨le_max_left 1 (min 100 x), max_le (by norm_num) (min_le_left 100 x)⟩

/-- C6: the repository's multi-stage total Δv (payload mass folded onto the top
stage, then totalDeltaV) equals the spec's sum over stages of
deltaV(isp_i, wet_i + payload_above_i, dry_i + payload_above_i) where
payload_above_i is the summed wet mass of the stages above plus the payload
mass. -/
theorem C6_total_deltaV_payload (specs : List StageSpec) (payloadMass : ℝ) :
    getTotalDeltaV specs payloadMass = specMultiStageDeltaV payloadMass specs :=
  totalDeltaV_addPayloadToTop payloadMass specs

/-- C7: after abort the simulator is not running, the outcome is Aborted, and any
sequence of subsequent ticks leaves the whole simulator (state, event log and
snapshot history included) unchanged. -/
theorem C7_abort_halts (s : FlightSim) (dts : List ℝ) :
    (abort s).isRunning = false ∧ (abort s).outcome = some FlightOutcome.aborted ∧
    dts.foldl tick (abort s) = abort s :=
  ⟨rfl, rfl, foldl_tick_stuck dts (abort s) (by simp [abort])⟩

/-- C8: one RK4 step preserves mass and fuel exactly and advances time by dt. -/
theorem C8_rk4_preserves_mass_fuel (state : SimState) (dt : ℝ) (thrust : Vec2)
    (dragCoeff crossSection : ℝ) :
    (rk4Step state dt thrust dragCoeff crossSection).mass = state.mass ∧
    (rk4Step state dt thrust dragCoeff crossSection).fuel = state.fuel ∧
    (rk4Step state dt thrust dragCoeff crossSection).time = state.time + dt :=
  ⟨rfl, rfl, rfl⟩

/-- C9: the Hohmann transfer between equal circular orbits of any positive radius
has both burns and the total exactly zero in real arithmetic. -/
theorem C9_hohmann_equal_radii (r : ℝ) (hr : 0 < r) :
    (hohmannDeltaV r r).burn1 = 0 ∧ (hohmannDeltaV r r).burn2 = 0 ∧
    (hohmannDeltaV r r).total = 0 := by
  have hr' : r ≠ 0 := ne_of_gt hr
  have key : EARTH_MU * (2 / r - 1 / ((r + r) / 2)) = EARTH_MU / r := by
    field_simp
    ring
  simp only [hohmannDeltaV, key]
  simp

/-- C9 witness: the transfer between two orbits of radius one. -/
theorem C9_hohmann_equal_radii_witness :
    (0 : ℝ) < 1 ∧ (hohmannDeltaV 1 1).total = 0 :=
  ⟨by norm_num, (C9_hohmann_equal_radii 1 (by norm_num)).2.2⟩

/-- C10: when no outcome has been set, getResult reports FuelExhausted. -/
theorem C10_getResult_default_outcome (s : FlightSim) (h : s.outcome = none) :
    (getResult s).outcome = FlightOutcome.fuel_exhausted := by
  simp [getResult, h]

/-- C10 witness: a freshly constructed simulator has no outcome, and its result
outcome is FuelExhausted. -/
theorem C10_getResult_default_outcome_witness :
    (getResult (mkSimulator c1Config c1Mission [])).outcome =
      FlightOutcome.fuel_exhausted :=
  C10_getResult_default_outcome _ rfl

end MC
